import Mathlib

/-!
Shallow embedding of the walk controller of `snmpsim/commands/cmd2rec.py`
(the SNMP snapshot data recorder).  The embedding follows the source:

* `advance` models the "fuzzy logic of walking a broken OID" block of
  `cbFun` (the retry advancer, source lines 779-790);
* `cbFun` models the response callback (source lines 754-926), with the
  closure-captured `cbCtx` dict made an explicit `CbCtx` record;
* `processBinding`/`processBatch` model the nested var-bind loop
  (source lines 830-920);
* `mixinFormatValue` models `SnmprecRecordMixIn.formatValue`
  (source lines 116-142);
* `runWalk`/`finalSummary` model the dispatcher-driven callback sequence
  and the shutdown accounting of `main` (source lines 995-1003).

Python integers are modelled as `Nat` (the relevant counters never go
negative: every decrement in the source is guarded), Python tuple/OID
comparison as lexicographic comparison of `List Nat`, and Python 3 true
division in the retry-ratio test as exact division in `ℚ` (for the
magnitudes involved the float comparison against 5 agrees with the exact
rational comparison).  Wall-clock time (`reqTime`, `time.sleep`) is not
modelled; it influences no control-flow decision in the source.
-/

namespace Cmd2Rec

/-- Object identifiers: ordered numeric paths, as Python tuples of ints. -/
abbrev OID := List Nat

/-- Python tuple `<` on OIDs: lexicographic, shorter-prefix-is-smaller. -/
def oidLt : OID → OID → Bool
  | [], [] => false
  | [], _ :: _ => true
  | _ :: _, [] => false
  | a :: as, b :: bs => decide (a < b) || (decide (a = b) && oidLt as bs)

/-- Python tuple `>=` on OIDs (total order, so `x >= y` is `¬ (x < y)`). -/
def oidGe (x y : OID) : Bool := !(oidLt x y)

/-- Last element of a list, `0` for the empty list (Python `t[-1]`,
reached in the source only on lists long enough for the index to exist). -/
def lastD : List Nat → Nat
  | [] => 0
  | [a] => a
  | _ :: b :: t => lastD (b :: t)

/-- The values a poll can return.  `Integer32`/`Unsigned32` enumeration
subtypes are invisible here (re-wrapping them is the identity on the
numeric value), `Bits` keeps its raw octets.  `absent` models a `None`
value; `noSuchObject`/`noSuchInstance`/`endOfMibView` are the RFC 1905
exception sentinels. -/
inductive Value where
  | int (n : Int)
  | unsigned (n : Nat)
  | octets (s : List Nat)
  | objid (o : OID)
  | null
  | bits (s : List Nat)
  | noSuchObject
  | noSuchInstance
  | endOfMibView
  | absent
deriving Repr, DecidableEq

/-- Sentinel markers: source lines 837-841 (`value is None` or a tag of
`NoSuchObject`/`NoSuchInstance`/`EndOfMibView`). -/
def isSentinel : Value → Bool
  | .absent => true
  | .noSuchObject => true
  | .noSuchInstance => true
  | .endOfMibView => true
  | _ => false

/-- Value normalization, source lines 843-851: re-wrapping `Integer32` and
`Unsigned32` strips enumeration subtyping (identity on the modelled
value); `Bits` is re-wrapped as an `OctetString`. -/
def normalizeValue : Value → Value
  | .bits s => .octets s
  | v => v

/-- The retry advancer: the "fuzzy logic of walking a broken OID" block,
source lines 779-790, as a pure function of the failed OID, the current
`cbCtx['retries']` and the configured `continueOnErrors` budget.
`oid.dropLast` is Python `oid[:-1]`, `oid.dropLast.dropLast` is
`oid[:-2]`, `lastD oid` is `oid[-1]` and `lastD oid.dropLast` is
`oid[-2]`.  The guard division is Python 3 true division, modelled in
`ℚ` (with a zero budget the branch is unreachable, see the safety claim). -/
def advance (oid : OID) (retries budget : Nat) : OID :=
  if oid.length < 4 then
    oid
  else if (5 : ℚ) < ((budget : ℚ) - (retries : ℚ)) * 10 / (budget : ℚ) then
    oid.dropLast.dropLast ++ [lastD oid.dropLast + 1]
  else if lastD oid ≠ 0 then
    oid.dropLast ++ [lastD oid + 1]
  else
    oid.dropLast.dropLast ++ [lastD oid.dropLast + 1, 0]

/-- Bump the final component of an identifier by one, in place. -/
def bumpLast (l : List Nat) : List Nat := l.set (l.length - 1) (lastD l + 1)

/-- The retry advancer as the specification words it (§4.1 of the spec):
keep short identifiers unchanged; past half the budget drop the last
component and bump the new last one; otherwise bump a nonzero last
component; otherwise bump the second-to-last component and append a `0`.
Stated independently of `advance` via the in-place `bumpLast`. -/
def advanceSpec (oid : OID) (retries budget : Nat) : OID :=
  if oid.length < 4 then
    oid
  else if (5 : ℚ) < ((budget : ℚ) - (retries : ℚ)) * 10 / (budget : ℚ) then
    bumpLast oid.dropLast
  else if lastD oid ≠ 0 then
    bumpLast oid
  else
    bumpLast oid.dropLast ++ [0]

/-- A formatted record line: the `(textOid, textTag, textValue)` triple a
record formatter renders a binding into. -/
structure RecTriple where
  oid : OID
  tag : String
  val : String
deriving Repr, DecidableEq

/-- The per-binding `context` dict built at source lines 855-866 (the
wall-clock `reqTime` entry is not modelled). -/
structure FmtCtx where
  origOid : OID
  origValue : Value
  count : Nat
  total : Nat
  iteration : Nat
  startOID : OID
  stopOID : Option OID
  stopFlag : Bool
deriving Repr

/-- Outcome of `dataFileHandler.format` on one binding, as observed by the
caller at source lines 868-920: a formatted line, a raised
`MoreDataNotification` (with optional `period`), a raised
`NoDataNotification`, or a raised `SnmpsimError`. -/
inductive FormatResult where
  | line (t : RecTriple)
  | moreData (period : Option Nat)
  | noData
  | fmtError
deriving Repr, DecidableEq

/-- The triple handed to a variation module's `record` handler by
`SnmprecRecordMixIn.formatValue` (source lines 124-137): the OID text of
the hex-mode rendering, and the plain-mode tag/value unless the plain tag
differs from the hex tag (in which case the hex pair is kept). -/
def chosenTriple (bHex bPlain : OID → Value → RecTriple)
    (oid : OID) (v : Value) : RecTriple :=
  let hexT := bHex oid v
  let plainT := bPlain oid v
  if plainT.tag ≠ hexT.tag then hexT
  else { oid := hexT.oid, tag := plainT.tag, val := plainT.val }

/-- `SnmprecRecordMixIn.formatValue` (source lines 116-142), lifted to a
`FormatResult`.  `bHex`/`bPlain` stand for the inherited
`snmprec.SnmprecRecord.formatValue` in hex and `nohex` mode — repository
code that lives outside the provided sources.  Modelled from the spec:
per §4.3 the base formatter totally renders a binding into a record
triple; all theorems below are parametric in `bHex`/`bPlain`.  A present
variation module is its `record` handler, an arbitrary function that may
return a line or raise either notification (the `context['hextag']`
stash, which only feeds that same handler, is not modelled separately). -/
def mixinFormatValue (bHex bPlain : OID → Value → RecTriple)
    (vmod : Option (RecTriple → FmtCtx → FormatResult))
    (oid : OID) (v : Value) (ctx : FmtCtx) : FormatResult :=
  match vmod with
  | some handler => handler (chosenTriple bHex bPlain oid v) ctx
  | none =>
      if ctx.stopFlag then FormatResult.noData
      else FormatResult.line (bHex oid v)

/-- The mutable `cbCtx` dict (source lines 928-936), minus the wall-clock
`reqTime` entry. -/
structure CbCtx where
  total : Nat
  count : Nat
  errors : Nat
  iteration : Nat
  retries : Nat
  lastOID : OID
deriving Repr, DecidableEq

/-- The configuration closed over by `cbFun`: start/stop OIDs, the
`--continue-on-errors` retry budget, and `dataFileHandler.format`. -/
structure Config where
  startOID : OID
  stopOID : Option OID
  continueOnErrors : Nat
  fmt : OID → Value → FmtCtx → FormatResult

/-- The initial `cbCtx` (source lines 928-936). -/
def initCtx (cfg : Config) : CbCtx :=
  { total := 0, count := 0, errors := 0, iteration := 0,
    retries := cfg.continueOnErrors, lastOID := cfg.startOID }

/-- Per-binding stop test, source lines 833-841: with a stop OID
configured, stop at or past it; otherwise (and below it) stop on a
sentinel value. -/
def stopCond (stopO : Option OID) (oid : OID) (v : Value) : Bool :=
  match stopO with
  | some s => if oidGe oid s then true else isSentinel v
  | none => isSentinel v

/-- State threaded through the var-bind loop of one callback invocation:
the session counters, the `stopFlag` local, the lines written to the
output file, the polls issued from inside the loop, and (pure
instrumentation, read by nothing in the model) a log of each binding with
the `stopFlag` it was formatted under. -/
structure BatchState where
  ctx : CbCtx
  stopFlag : Bool
  written : List RecTriple
  requests : List OID
  fmtLog : List (OID × Value × Bool)

/-- The `context` dict built for one binding (source lines 855-866). -/
def mkFmtCtx (cfg : Config) (ctx : CbCtx) (oid : OID) (v : Value)
    (flag : Bool) : FmtCtx :=
  { origOid := oid, origValue := v, count := ctx.count, total := ctx.total,
    iteration := ctx.iteration, startOID := cfg.startOID,
    stopOID := cfg.stopOID, stopFlag := flag }

/-- Reaction to one format outcome, source lines 868-920:
`MoreDataNotification` resets `count`, bumps `iteration`, issues a fresh
poll at the configured start OID and latches `stopFlag`;
`NoDataNotification` and `SnmpsimError` skip the binding; a line is
written and counted. -/
def reactFormat (cfg : Config) (st1 : BatchState) : FormatResult → BatchState
  | FormatResult.moreData _ =>
      { st1 with
        ctx := { st1.ctx with count := 0, iteration := st1.ctx.iteration + 1 },
        requests := st1.requests ++ [cfg.startOID],
        stopFlag := true }
  | FormatResult.noData => st1
  | FormatResult.fmtError => st1
  | FormatResult.line t =>
      { st1 with
        ctx := { st1.ctx with count := st1.ctx.count + 1,
                              total := st1.ctx.total + 1 },
        written := st1.written ++ [t] }

/-- One iteration of the inner var-bind loop, source lines 831-920:
update `stopFlag`, normalize the value, format the binding under the
updated flag, and react to the outcome. -/
def processBinding (cfg : Config) (st : BatchState) (oid : OID) (v : Value) :
    BatchState :=
  reactFormat cfg
    { st with stopFlag := st.stopFlag || stopCond cfg.stopOID oid v,
              fmtLog := st.fmtLog ++
                [(oid, v, st.stopFlag || stopCond cfg.stopOID oid v)] }
    (cfg.fmt oid (normalizeValue v)
      (mkFmtCtx cfg st.ctx oid (normalizeValue v)
        (st.stopFlag || stopCond cfg.stopOID oid v)))

/-- The nested `for varBindRow in varBindTable: for oid, value in
varBindRow:` loop, source lines 830-831. -/
def processBatch (cfg : Config) (st : BatchState)
    (t : List (List (OID × Value))) : BatchState :=
  t.foldl
    (fun s row => row.foldl (fun s2 b => processBinding cfg s2 b.1 b.2) s) st

/-- One response delivered to the callback: the engine-level
`errorIndication` (collapsed to its truthiness), the numeric protocol
`errorStatus`, and the var-bind table. -/
structure Response where
  errorIndication : Bool
  errorStatus : Nat
  varBindTable : List (List (OID × Value))

/-- Everything one callback invocation produces: the updated session
counters, the lines written, the polls issued, the truthiness of the
callback's return value (a bare `return` is `None`, hence false), and the
format instrumentation log of the batch loop. -/
structure StepResult where
  ctx : CbCtx
  written : List RecTriple
  requests : List OID
  cont : Bool
  fmtLog : List (OID × Value × Bool)

/-- The error classification of source line 764:
`errorStatus and errorStatus != 2 or errorIndication` — a nonzero status
other than the tolerated `noSuchName` (2), or any transport-level
indication. -/
def isErrorResponse (r : Response) : Bool :=
  (decide (r.errorStatus ≠ 0) && decide (r.errorStatus ≠ 2))
    || r.errorIndication

/-- `varBindTable[-1][0][0]` guarded by `IndexError` (source lines
770-774) and by the truthiness test of source line 824: the OID of the
first binding of the last row, if both exist. -/
def lastRowFirstOID (t : List (List (OID × Value))) : Option OID :=
  match t.getLast? with
  | some row =>
      match row.head? with
      | some b => some b.1
      | none => none
  | none => none

/-- The clean-success arm of the callback, source lines 821-926: heal the
retry budget by one step when below the configured maximum, remember the
last returned OID, run the var-bind loop from a fresh `stopFlag`, and
continue walking unless `stopFlag` ended up set. -/
def successStep (cfg : Config) (ctx : CbCtx)
    (t : List (List (OID × Value))) : StepResult :=
  let ctx1 :=
    if decide (ctx.retries ≠ cfg.continueOnErrors) then
      { ctx with retries := ctx.retries + 1 }
    else ctx
  let ctx2 :=
    match lastRowFirstOID t with
    | some o => { ctx1 with lastOID := o }
    | none => ctx1
  let st := processBatch cfg
    { ctx := ctx2, stopFlag := false, written := [], requests := [],
      fmtLog := [] } t
  { ctx := st.ctx, written := st.written, requests := st.requests,
    cont := !st.stopFlag, fmtLog := st.fmtLog }

/-- The response callback `cbFun`, source lines 754-926. -/
def cbFun (cfg : Config) (ctx : CbCtx) (r : Response) : StepResult :=
  if r.errorIndication && decide (ctx.retries = 0) then
    -- transport error with no retries left, lines 757-760
    { ctx := { ctx with errors := ctx.errors + 1 },
      written := [], requests := [], cont := false, fmtLog := [] }
  else if isErrorResponse r then
    -- error path, lines 764-819
    if decide (ctx.retries ≠ 0) then
      let failOID := (lastRowFirstOID r.varBindTable).getD ctx.lastOID
      let nextOID := advance failOID ctx.retries cfg.continueOnErrors
      { ctx := { ctx with retries := ctx.retries - 1, lastOID := nextOID,
                          errors := ctx.errors + 1 },
        written := [], requests := [nextOID], cont := false, fmtLog := [] }
    else
      { ctx := { ctx with errors := ctx.errors + 1 },
        written := [], requests := [], cont := false, fmtLog := [] }
  else
    successStep cfg ctx r.varBindTable

/-- Fold an arbitrary sequence of callback invocations over the session
counters (the engine may invoke the callback any number of times). -/
def iterCb (cfg : Config) (ctx : CbCtx) : List Response → CbCtx
  | [] => ctx
  | r :: rs => iterCb cfg (cbFun cfg ctx r).ctx rs

/-- Drive the callback over a response sequence the way the dispatcher
does: each response is delivered only while the previous callback asked
to continue.  Returns the final counters, all written lines, and whether
the walk is still awaiting responses (`false` = terminated). -/
def runWalk (cfg : Config) (ctx : CbCtx) :
    List Response → CbCtx × List RecTriple × Bool
  | [] => (ctx, [], true)
  | r :: rs =>
      let s := cbFun cfg ctx r
      if s.cont then
        let rest := runWalk cfg s.ctx rs
        (rest.1, s.written ++ rest.2.1, rest.2.2)
      else (s.ctx, s.written, false)

/-- The final summary of `main` (source lines 995-1003): at shutdown the
per-iteration `count` is added onto `total` once more, and the
accumulated error counter is reported. -/
structure Summary where
  total : Nat
  errors : Nat
deriving Repr, DecidableEq

/-- Source line 997 and the final log line 999-1003. -/
def finalSummary (ctx : CbCtx) : Summary :=
  { total := ctx.total + ctx.count, errors := ctx.errors }

/-- The retry-ratio division of source line 783 is evaluated exactly when
the callback reaches the error path with retries left and the failed OID
long enough to skip (the `len < 4` guard short-circuits first). -/
def ratioEvaluated (cfg : Config) (ctx : CbCtx) (r : Response) : Bool :=
  !(r.errorIndication && decide (ctx.retries = 0)) && isErrorResponse r &&
    decide (ctx.retries ≠ 0) &&
    !decide (((lastRowFirstOID r.varBindTable).getD ctx.lastOID).length < 4)

/-- The inner var-bind loop over an already flattened binding list. -/
def bindFoldl (cfg : Config) (st : BatchState) (bs : List (OID × Value)) :
    BatchState :=
  bs.foldl (fun s b => processBinding cfg s b.1 b.2) st

/-- The batch state at the top of the var-bind loop: fresh `stopFlag`,
nothing written or requested yet (source lines 827-830). -/
def initBatch (ctx : CbCtx) : BatchState :=
  { ctx := ctx, stopFlag := false, written := [], requests := [],
    fmtLog := [] }

/-- The sticky `stopFlag` each successive binding of a batch is formatted
under, starting from flag `b`: a binding sees `true` exactly when the
flag was already set or some binding up to and including it meets the
stop condition. -/
def seenLog (stopO : Option OID) : Bool → List (OID × Value) →
    List (OID × Value × Bool)
  | _, [] => []
  | b, (o, v) :: rest =>
      (o, v, b || stopCond stopO o v) ::
        seenLog stopO (b || stopCond stopO o v) rest

/-- Modelled from the spec: a concrete stand-in for the inherited
`snmprec.SnmprecRecord.formatValue` (repository code outside the provided
sources) used in the concrete scenarios; per §4.3 it totally renders a
binding into a record triple.  The parametric theorems hold for every
such renderer. -/
def sampleRender : OID → Value → RecTriple :=
  fun o _ => { oid := o, tag := "2", val := "x" }

/-- Scenario configuration (§8 of the spec): start `1.3.6.1.2.1`, stop
`1.3.6.1.2.2`, snmprec destination records, no variation module, default
`--continue-on-errors` budget of 0. -/
def scen1Cfg : Config :=
  { startOID := [1, 3, 6, 1, 2, 1], stopOID := some [1, 3, 6, 1, 2, 2],
    continueOnErrors := 0,
    fmt := mixinFormatValue sampleRender sampleRender none }

/-- A clean single-binding GETNEXT response below the stop OID. -/
def goodResp (k : Nat) : Response :=
  { errorIndication := false, errorStatus := 0,
    varBindTable := [[([1, 3, 6, 1, 2, 1, k], Value.int (k : Int))]] }

/-- The closing response of scenario 1: the walk has crossed into the
stop OID with an end-of-subtree sentinel. -/
def sentResp : Response :=
  { errorIndication := false, errorStatus := 0,
    varBindTable := [[([1, 3, 6, 1, 2, 2], Value.endOfMibView)]] }

/-- Scenario 1's engine behavior: five strictly increasing clean bindings
below the stop OID, then the sentinel at the stop OID. -/
def scen1Responses : List Response :=
  [goodResp 1, goodResp 2, goodResp 3, goodResp 4, goodResp 5, sentResp]

/-- Scenario 1 executed against the embedded controller. -/
def scen1Out : CbCtx × List RecTriple × Bool :=
  runWalk scen1Cfg (initCtx scen1Cfg) scen1Responses

/-- A transport error response with an empty binding table. -/
def cex3Resp : Response :=
  { errorIndication := true, errorStatus := 0, varBindTable := [] }

/-- A two-row success response whose first binding reaches the stop OID
while its second binding is an ordinary one below the stop OID. -/
def cex5Resp : Response :=
  { errorIndication := false, errorStatus := 0,
    varBindTable := [[([1, 3, 6, 1, 2, 2], Value.int 1)],
                     [([1, 3, 6, 1, 2, 1], Value.int 2)]] }

/-- A variation-module `record` handler that raises
`MoreDataNotification` (period 2) on one specific OID and emits every
other binding unchanged. -/
def moreHandler : RecTriple → FmtCtx → FormatResult :=
  fun t _ =>
    if t.oid = [1, 3, 6, 1, 2, 1, 1] then FormatResult.moreData (some 2)
    else FormatResult.line t

/-- Scenario 1's configuration with the `moreHandler` variation module
loaded. -/
def cex8Cfg : Config :=
  { startOID := [1, 3, 6, 1, 2, 1], stopOID := some [1, 3, 6, 1, 2, 2],
    continueOnErrors := 0,
    fmt := mixinFormatValue sampleRender sampleRender (some moreHandler) }

/-- A two-row success response whose first binding triggers `moreHandler`
and whose second binding is an ordinary one. -/
def cex8Resp : Response :=
  { errorIndication := false, errorStatus := 0,
    varBindTable := [[([1, 3, 6, 1, 2, 1, 1], Value.int 1)],
                     [([1, 3, 6, 1, 2, 1, 2], Value.int 2)]] }

/-- A variation-module `record` handler that emits every binding as-is. -/
def passHandler : RecTriple → FmtCtx → FormatResult :=
  fun t _ => FormatResult.line t

/-- Scenario 1's configuration with the pass-through variation module
loaded. -/
def modCfg : Config :=
  { startOID := [1, 3, 6, 1, 2, 1], stopOID := some [1, 3, 6, 1, 2, 2],
    continueOnErrors := 0,
    fmt := mixinFormatValue sampleRender sampleRender (some passHandler) }

/-- A response carrying protocol status 2 (`noSuchName`) with no
transport error and one ordinary binding. -/
def status2Resp : Response :=
  { errorIndication := false, errorStatus := 2,
    varBindTable := [[([1, 3, 6, 1, 2, 1, 1], Value.int 1)]] }

/-- Scenario 1's configuration with a retry budget of three. -/
def budget3Cfg : Config :=
  { startOID := [1, 3, 6, 1, 2, 1], stopOID := some [1, 3, 6, 1, 2, 2],
    continueOnErrors := 3,
    fmt := mixinFormatValue sampleRender sampleRender none }

/-- A transport-error response whose table still carries a long-enough
failed OID. -/
def errResp : Response :=
  { errorIndication := true, errorStatus := 0,
    varBindTable := [[([1, 3, 6, 1, 2, 1, 5], Value.int 1)]] }

/-! ### List and order helper lemmas -/

lemma lastD_append_singleton (p : List Nat) (x : Nat) :
    lastD (p ++ [x]) = x := by
  induction p with
  | nil => rfl
  | cons a p ih =>
      cases p with
      | nil => rfl
      | cons b q => simpa [lastD] using ih

lemma eq_dropLast_lastD (l : List Nat) (h : l ≠ []) :
    l = l.dropLast ++ [lastD l] := by
  induction l with
  | nil => exact absurd rfl h
  | cons a t ih =>
      cases t with
      | nil => rfl
      | cons b q =>
          have ih2 := ih (by simp)
          simp only [List.dropLast_cons₂, lastD, List.cons_append]
          exact congrArg (a :: ·) ih2

lemma set_last_eq (l : List Nat) (x : Nat) (h : l ≠ []) :
    l.set (l.length - 1) x = l.dropLast ++ [x] := by
  induction l with
  | nil => exact absurd rfl h
  | cons a t ih =>
      cases t with
      | nil => rfl
      | cons b q =>
          have ih2 := ih (by simp)
          simp only [List.length_cons, Nat.add_sub_cancel] at ih2 ⊢
          show a :: (b :: q).set q.length x = (a :: b :: q).dropLast ++ [x]
          rw [ih2, List.dropLast_cons₂, List.cons_append]

lemma bumpLast_eq (l : List Nat) (h : l ≠ []) :
    bumpLast l = l.dropLast ++ [lastD l + 1] :=
  set_last_eq l (lastD l + 1) h

lemma oidLt_append_left (p x y : OID) :
    oidLt (p ++ x) (p ++ y) = oidLt x y := by
  induction p with
  | nil => rfl
  | cons a p ih => simp [oidLt, ih, Nat.lt_irrefl]

lemma oidLt_bump_drop (p : OID) (s t : Nat) :
    oidLt (p ++ [s, t]) (p ++ [s + 1]) = true := by
  rw [oidLt_append_left]
  simp [oidLt, Nat.lt_succ_self]

lemma oidLt_bump_tail (p : OID) (s t : Nat) :
    oidLt (p ++ [s, t]) (p ++ [s, t + 1]) = true := by
  rw [oidLt_append_left]
  simp [oidLt, Nat.lt_irrefl, Nat.lt_succ_self]

lemma oidLt_bump_reset (p : OID) (s t : Nat) :
    oidLt (p ++ [s, t]) (p ++ [s + 1, 0]) = true := by
  rw [oidLt_append_left]
  simp [oidLt, Nat.lt_succ_self]

/-! ### Batch-loop helper lemmas -/

lemma reactFormat_retries (cfg : Config) (st1 : BatchState)
    (fr : FormatResult) :
    (reactFormat cfg st1 fr).ctx.retries = st1.ctx.retries := by
  cases fr <;> rfl

lemma reactFormat_errors (cfg : Config) (st1 : BatchState)
    (fr : FormatResult) :
    (reactFormat cfg st1 fr).ctx.errors = st1.ctx.errors := by
  cases fr <;> rfl

lemma reactFormat_latch (cfg : Config) (st1 : BatchState) (fr : FormatResult)
    (h : st1.stopFlag = true) : (reactFormat cfg st1 fr).stopFlag = true := by
  cases fr <;> simp [reactFormat, h]

lemma processBinding_retries (cfg : Config) (st : BatchState) (o : OID)
    (v : Value) : (processBinding cfg st o v).ctx.retries = st.ctx.retries := by
  unfold processBinding
  rw [reactFormat_retries]

lemma processBinding_errors (cfg : Config) (st : BatchState) (o : OID)
    (v : Value) : (processBinding cfg st o v).ctx.errors = st.ctx.errors := by
  unfold processBinding
  rw [reactFormat_errors]

lemma processBinding_latch (cfg : Config) (st : BatchState) (o : OID)
    (v : Value) (h : st.stopFlag = true) :
    (processBinding cfg st o v).stopFlag = true := by
  unfold processBinding
  exact reactFormat_latch _ _ _ (by simp [h])

lemma bindFoldl_cons (cfg : Config) (st : BatchState) (b : OID × Value)
    (bs : List (OID × Value)) :
    bindFoldl cfg st (b :: bs) =
      bindFoldl cfg (processBinding cfg st b.1 b.2) bs := rfl

lemma bindFoldl_pres (cfg : Config) (P : BatchState → Prop)
    (hstep : ∀ st o v, P st → P (processBinding cfg st o v)) :
    ∀ (bs : List (OID × Value)) (st : BatchState),
      P st → P (bindFoldl cfg st bs) := by
  intro bs
  induction bs with
  | nil => intro st h; exact h
  | cons b bs ih =>
      intro st h
      rw [bindFoldl_cons]
      exact ih _ (hstep _ _ _ h)

lemma processBatch_eq_bindFoldl (cfg : Config) :
    ∀ (t : List (List (OID × Value))) (st : BatchState),
      processBatch cfg st t = bindFoldl cfg st t.flatten := by
  intro t
  induction t with
  | nil => intro st; rfl
  | cons row t ih =>
      intro st
      show processBatch cfg
        (row.foldl (fun s2 b => processBinding cfg s2 b.1 b.2) st) t = _
      rw [ih, List.flatten_cons]
      unfold bindFoldl
      rw [List.foldl_append]

lemma processBatch_pres (cfg : Config) (P : BatchState → Prop)
    (hstep : ∀ st o v, P st → P (processBinding cfg st o v))
    (t : List (List (OID × Value))) (st : BatchState) (h : P st) :
    P (processBatch cfg st t) := by
  rw [processBatch_eq_bindFoldl]
  exact bindFoldl_pres cfg P hstep t.flatten st h

lemma processBatch_retries (cfg : Config) (t : List (List (OID × Value)))
    (st : BatchState) :
    (processBatch cfg st t).ctx.retries = st.ctx.retries :=
  processBatch_pres cfg (fun s => s.ctx.retries = st.ctx.retries)
    (fun s o v h => (processBinding_retries cfg s o v).trans h) t st rfl

lemma processBatch_errors (cfg : Config) (t : List (List (OID × Value)))
    (st : BatchState) :
    (processBatch cfg st t).ctx.errors = st.ctx.errors :=
  processBatch_pres cfg (fun s => s.ctx.errors = st.ctx.errors)
    (fun s o v h => (processBinding_errors cfg s o v).trans h) t st rfl

lemma processBatch_latch (cfg : Config) (t : List (List (OID × Value)))
    (st : BatchState) (h : st.stopFlag = true) :
    (processBatch cfg st t).stopFlag = true :=
  processBatch_pres cfg (fun s => s.stopFlag = true)
    (fun s o v hs => processBinding_latch cfg s o v hs) t st h

lemma reactFormat_flag_log (cfg : Config) (st1 : BatchState)
    (fr : FormatResult) (h : ∀ p, fr ≠ FormatResult.moreData p) :
    (reactFormat cfg st1 fr).stopFlag = st1.stopFlag ∧
    (reactFormat cfg st1 fr).fmtLog = st1.fmtLog := by
  cases fr with
  | moreData p => exact absurd rfl (h p)
  | line t => exact ⟨rfl, rfl⟩
  | noData => exact ⟨rfl, rfl⟩
  | fmtError => exact ⟨rfl, rfl⟩

lemma processBinding_flag_log (cfg : Config) (st : BatchState) (o : OID)
    (v : Value)
    (h : ∀ p, cfg.fmt o (normalizeValue v)
        (mkFmtCtx cfg st.ctx o (normalizeValue v)
          (st.stopFlag || stopCond cfg.stopOID o v)) ≠
        FormatResult.moreData p) :
    (processBinding cfg st o v).stopFlag =
      (st.stopFlag || stopCond cfg.stopOID o v) ∧
    (processBinding cfg st o v).fmtLog =
      st.fmtLog ++ [(o, v, st.stopFlag || stopCond cfg.stopOID o v)] := by
  unfold processBinding
  exact reactFormat_flag_log cfg _ _ h

/-- A format function that can never signal `MoreDataNotification`. -/
def neverMoreData (cfg : Config) : Prop :=
  ∀ o v c p, cfg.fmt o v c ≠ FormatResult.moreData p

lemma mixinNone_neverMoreData (bHex bPlain : OID → Value → RecTriple)
    (cfg : Config) (h : cfg.fmt = mixinFormatValue bHex bPlain none) :
    neverMoreData cfg := by
  intro o v c p
  rw [h]
  unfold mixinFormatValue
  by_cases hs : c.stopFlag <;> simp [hs]

lemma bindFoldl_log (cfg : Config) (h : neverMoreData cfg) :
    ∀ (bs : List (OID × Value)) (st : BatchState),
      (bindFoldl cfg st bs).fmtLog =
        st.fmtLog ++ seenLog cfg.stopOID st.stopFlag bs ∧
      (bindFoldl cfg st bs).stopFlag =
        (st.stopFlag || bs.any fun b => stopCond cfg.stopOID b.1 b.2) := by
  intro bs
  induction bs with
  | nil => intro st; simp [bindFoldl, seenLog]
  | cons b bs ih =>
      intro st
      rw [bindFoldl_cons]
      have hstep := processBinding_flag_log cfg st b.1 b.2 (fun p => h _ _ _ p)
      obtain ⟨ihl, ihf⟩ := ih (processBinding cfg st b.1 b.2)
      constructor
      · rw [ihl, hstep.2, hstep.1]
        cases b with
        | mk o v =>
            simp [seenLog, List.append_assoc]
      · rw [ihf, hstep.1]
        cases b with
        | mk o v =>
            simp [List.any_cons, Bool.or_assoc]

lemma seenLog_getElem (stopO : Option OID) :
    ∀ (bs : List (OID × Value)) (b : Bool) (j : Nat),
      (seenLog stopO b bs)[j]? =
        bs[j]?.map fun x =>
          (x.1, x.2,
            b || ((bs.take (j + 1)).any fun y => stopCond stopO y.1 y.2)) := by
  intro bs
  induction bs with
  | nil => intro b j; simp [seenLog]
  | cons x bs ih =>
      intro b j
      cases j with
      | zero =>
          cases x with
          | mk o v => simp [seenLog, List.any_cons]
      | succ j =>
          cases x with
          | mk o v =>
              have ih2 := ih (b || stopCond stopO o v) j
              cases hbs : bs[j]? with
              | none => simp [seenLog, hbs] at ih2 ⊢; exact ih2
              | some y =>
                  simp [seenLog, hbs, List.any_cons, Bool.or_assoc] at ih2 ⊢
                  rw [ih2]

lemma successStep_retries (cfg : Config) (ctx : CbCtx)
    (t : List (List (OID × Value))) :
    (successStep cfg ctx t).ctx.retries =
      (if ctx.retries ≠ cfg.continueOnErrors then ctx.retries + 1
       else ctx.retries) := by
  unfold successStep
  cases h : lastRowFirstOID t <;>
    simp [h, processBatch_retries] <;>
    by_cases hc : ctx.retries = cfg.continueOnErrors <;> simp [hc]

lemma successStep_errors (cfg : Config) (ctx : CbCtx)
    (t : List (List (OID × Value))) :
    (successStep cfg ctx t).ctx.errors = ctx.errors := by
  unfold successStep
  cases h : lastRowFirstOID t <;>
    simp [h, processBatch_errors] <;>
    by_cases hc : ctx.retries = cfg.continueOnErrors <;> simp [hc]

/-! ### Callback-level helper lemmas -/

lemma errorIndication_of_not_isErrorResponse (r : Response)
    (h : isErrorResponse r = false) : r.errorIndication = false := by
  unfold isErrorResponse at h
  cases hi : r.errorIndication with
  | false => rfl
  | true => rw [hi] at h; simp at h

lemma cbFun_success_eq (cfg : Config) (ctx : CbCtx) (r : Response)
    (h : isErrorResponse r = false) :
    cbFun cfg ctx r = successStep cfg ctx r.varBindTable := by
  have hi := errorIndication_of_not_isErrorResponse r h
  unfold cbFun
  rw [hi]
  simp [h]

lemma cbFun_retries_cases (cfg : Config) (ctx : CbCtx) (r : Response) :
    (cbFun cfg ctx r).ctx.retries = ctx.retries ∨
    ((cbFun cfg ctx r).ctx.retries = ctx.retries - 1 ∧
      isErrorResponse r = true ∧ ctx.retries ≠ 0) ∨
    ((cbFun cfg ctx r).ctx.retries = ctx.retries + 1 ∧
      isErrorResponse r = false ∧ ctx.retries ≠ cfg.continueOnErrors) := by
  by_cases he : isErrorResponse r = true
  · by_cases h0 : ctx.retries = 0
    · left
      unfold cbFun
      by_cases hi : r.errorIndication = true <;> simp [hi, h0, he]
    · right; left
      refine ⟨?_, he, h0⟩
      unfold cbFun
      have hi : ¬(r.errorIndication && decide (ctx.retries = 0)) = true := by
        simp [h0]
      rw [if_neg hi, if_pos he, if_pos (by simpa using h0)]
  · have he2 : isErrorResponse r = false := by
      cases h : isErrorResponse r
      · rfl
      · exact absurd h he
    rw [cbFun_success_eq cfg ctx r he2, successStep_retries]
    by_cases hc : ctx.retries = cfg.continueOnErrors
    · left; simp [hc]
    · right; right
      exact ⟨by simp [hc], he2, hc⟩

lemma cbFun_retries_le (cfg : Config) (ctx : CbCtx) (r : Response)
    (h : ctx.retries ≤ cfg.continueOnErrors) :
    (cbFun cfg ctx r).ctx.retries ≤ cfg.continueOnErrors := by
  rcases cbFun_retries_cases cfg ctx r with h1 | ⟨h1, _, _⟩ | ⟨h1, _, hne⟩
  · rw [h1]; exact h
  · rw [h1]; exact le_trans (Nat.sub_le _ _) h
  · rw [h1]; exact Nat.succ_le_of_lt (lt_of_le_of_ne h hne)

lemma iterCb_retries_le (cfg : Config) :
    ∀ (rs : List Response) (ctx : CbCtx),
      ctx.retries ≤ cfg.continueOnErrors →
      (iterCb cfg ctx rs).retries ≤ cfg.continueOnErrors := by
  intro rs
  induction rs with
  | nil => intro ctx h; exact h
  | cons r rs ih =>
      intro ctx h
      exact ih _ (cbFun_retries_le cfg ctx r h)

/-! ### Claim theorems -/

/-- Claim C1: for every identifier of length ≥ 4, with a positive retry
budget and `0 < retriesRemaining ≤ retryBudget`, the retry advancer
computes the resume identifier exactly as specified (ratio-gated coarse
skip dropping the last component, else fine-grained last-component bump,
else second-to-last bump with an appended `0`), and identifiers of length
< 4 are returned unchanged. -/
theorem claim_C1_advance_matches_spec (oid : OID) (retries budget : Nat)
    (hb : 0 < budget) (hr : 0 < retries) (hrb : retries ≤ budget) :
    advance oid retries budget = advanceSpec oid retries budget ∧
    (oid.length < 4 → advance oid retries budget = oid) := by
  constructor
  · unfold advance advanceSpec
    by_cases h4 : oid.length < 4
    · rw [if_pos h4, if_pos h4]
    · rw [if_neg h4, if_neg h4]
      have hne : oid ≠ [] := by
        intro he
        rw [he] at h4
        simp at h4
      have hdne : oid.dropLast ≠ [] := by
        intro he
        have hl := congrArg List.length he
        rw [List.length_dropLast] at hl
        simp at hl
        omega
      by_cases hq :
          (5 : ℚ) < ((budget : ℚ) - (retries : ℚ)) * 10 / (budget : ℚ)
      · rw [if_pos hq, if_pos hq, bumpLast_eq _ hdne]
      · rw [if_neg hq, if_neg hq]
        by_cases hz : lastD oid ≠ 0
        · rw [if_pos hz, if_pos hz, bumpLast_eq _ hne]
        · rw [if_neg hz, if_neg hz, bumpLast_eq _ hdne, List.append_assoc]
          rfl
  · intro h4
    unfold advance
    rw [if_pos h4]

/-- Witness for C1: at identifier `1.3.6.1.2.1.5`, one retry left of a
budget of three, the hypotheses hold and the advancer agrees with its
specification. -/
theorem claim_C1_advance_matches_spec_witness :
    0 < 3 ∧ 0 < 1 ∧ 1 ≤ 3 ∧
    (advance [1, 3, 6, 1, 2, 1, 5] 1 3 = advanceSpec [1, 3, 6, 1, 2, 1, 5] 1 3 ∧
      (([1, 3, 6, 1, 2, 1, 5] : OID).length < 4 →
        advance [1, 3, 6, 1, 2, 1, 5] 1 3 = [1, 3, 6, 1, 2, 1, 5])) :=
  ⟨by decide, by decide, by decide,
    claim_C1_advance_matches_spec [1, 3, 6, 1, 2, 1, 5] 1 3
      (by decide) (by decide) (by decide)⟩

/-- Claim C2: with `0 < retriesRemaining ≤ retryBudget`, on identifiers
of length ≥ 4 the advancer's output is strictly greater than its input in
lexicographic order, and only the length-< 4 branch returns an identifier
that is not strictly greater (the input itself). -/
theorem claim_C2_advance_strictly_greater (oid : OID) (retries budget : Nat)
    (hr : 0 < retries) (hrb : retries ≤ budget) :
    (4 ≤ oid.length → oidLt oid (advance oid retries budget) = true) ∧
    (oid.length < 4 → advance oid retries budget = oid) := by
  constructor
  · intro h4
    have h4n : ¬oid.length < 4 := not_lt.mpr h4
    have hne : oid ≠ [] := by
      intro he
      rw [he] at h4
      simp at h4
    have hdne : oid.dropLast ≠ [] := by
      intro he
      have hl := congrArg List.length he
      rw [List.length_dropLast] at hl
      simp at hl
      omega
    have hoid :
        oid = oid.dropLast.dropLast ++ [lastD oid.dropLast, lastD oid] := by
      conv_lhs =>
        rw [eq_dropLast_lastD oid hne, eq_dropLast_lastD oid.dropLast hdne]
      rw [List.append_assoc]
      rfl
    unfold advance
    rw [if_neg h4n]
    by_cases hq :
        (5 : ℚ) < ((budget : ℚ) - (retries : ℚ)) * 10 / (budget : ℚ)
    · rw [if_pos hq]
      nth_rewrite 1 [hoid]
      exact oidLt_bump_drop _ _ _
    · rw [if_neg hq]
      by_cases hz : lastD oid ≠ 0
      · rw [if_pos hz]
        have harg : oid.dropLast ++ [lastD oid + 1] =
            oid.dropLast.dropLast ++ [lastD oid.dropLast, lastD oid + 1] := by
          conv_lhs => rw [eq_dropLast_lastD oid.dropLast hdne]
          rw [List.append_assoc]
          rfl
        rw [harg]
        nth_rewrite 1 [hoid]
        exact oidLt_bump_tail _ _ _
      · rw [if_neg hz]
        nth_rewrite 1 [hoid]
        exact oidLt_bump_reset _ _ _
  · intro h4
    unfold advance
    rw [if_pos h4]

/-- Witness for C2: at identifier `1.3.6.1.2.1.0` with three retries of a
budget of three, the hypotheses hold, the advanced identifier is strictly
greater, and the short-identifier clause holds vacuously. -/
theorem claim_C2_advance_strictly_greater_witness :
    0 < 3 ∧ 3 ≤ 3 ∧
    ((4 ≤ ([1, 3, 6, 1, 2, 1, 0] : OID).length →
        oidLt [1, 3, 6, 1, 2, 1, 0] (advance [1, 3, 6, 1, 2, 1, 0] 3 3) = true) ∧
      (([1, 3, 6, 1, 2, 1, 0] : OID).length < 4 →
        advance [1, 3, 6, 1, 2, 1, 0] 3 3 = [1, 3, 6, 1, 2, 1, 0])) :=
  ⟨by decide, by decide,
    claim_C2_advance_strictly_greater [1, 3, 6, 1, 2, 1, 0] 3 3
      (by decide) (by decide)⟩

/-- Counterexample to claim C3 as stated: with the retry budget exhausted
(`retries = 0`) and a transport error, the callback increments the error
counter but issues no poll at all (in particular none at
`lastGoodIdentifier`) and returns `None`, terminating the resume chain
instead of continuing the walk. -/
theorem claim_C3_counterexample :
    (cbFun scen1Cfg (initCtx scen1Cfg) cex3Resp).requests = [] ∧
    (cbFun scen1Cfg (initCtx scen1Cfg) cex3Resp).cont = false ∧
    (cbFun scen1Cfg (initCtx scen1Cfg) cex3Resp).ctx.errors = 1 := by
  decide

/-- Claim C3 amended: when a failure arrives with the retry budget
exhausted, the controller counts exactly one exhaustion event (the error
counter increases by one, everything else in the session is unchanged),
logs it, and terminates the resume chain — it writes nothing, issues no
further poll, and the callback returns false. -/
theorem claim_C3_budget_exhausted (cfg : Config) (ctx : CbCtx) (r : Response)
    (hi : r.errorIndication = true) (h0 : ctx.retries = 0) :
    (cbFun cfg ctx r).ctx = { ctx with errors := ctx.errors + 1 } ∧
    (cbFun cfg ctx r).requests = [] ∧
    (cbFun cfg ctx r).written = [] ∧
    (cbFun cfg ctx r).cont = false := by
  unfold cbFun
  rw [hi]
  simp [h0]

/-- Witness for the amended C3: the concrete exhausted-budget transport
error from the counterexample input. -/
theorem claim_C3_budget_exhausted_witness :
    cex3Resp.errorIndication = true ∧ (initCtx scen1Cfg).retries = 0 ∧
    ((cbFun scen1Cfg (initCtx scen1Cfg) cex3Resp).ctx =
        { initCtx scen1Cfg with errors := (initCtx scen1Cfg).errors + 1 } ∧
      (cbFun scen1Cfg (initCtx scen1Cfg) cex3Resp).requests = [] ∧
      (cbFun scen1Cfg (initCtx scen1Cfg) cex3Resp).written = [] ∧
      (cbFun scen1Cfg (initCtx scen1Cfg) cex3Resp).cont = false) :=
  ⟨by decide, by decide,
    claim_C3_budget_exhausted scen1Cfg (initCtx scen1Cfg) cex3Resp
      (by decide) (by decide)⟩

/-- Claim C4 concerns scenario 1 (clean walk, five increasing bindings
below the stop OID, then a sentinel at the stop OID).  The controller
does emit exactly 5 records, terminate, and finish with `errorCount = 0`,
but the final summary reports a total of 10, not 5: the shutdown path
adds the per-iteration count onto a total that was already incremented
once per written record. -/
theorem claim_C4_scenario1_report :
    scen1Out.2.1.length = 5 ∧ scen1Out.2.2 = false ∧
    (finalSummary scen1Out.1).errors = 0 ∧
    (finalSummary scen1Out.1).total = 10 := by
  decide

/-- Counterexample to claim C5 as stated: in a success batch whose first
binding reaches the stop OID, the second binding is formatted with
`stopFlag = true` even though it is below the stop OID and not a sentinel
— the flag is latched for the rest of the batch, so "true iff this
binding meets the stop condition" fails. -/
theorem claim_C5_counterexample :
    (cbFun scen1Cfg (initCtx scen1Cfg) cex5Resp).fmtLog[1]? =
      some ([1, 3, 6, 1, 2, 1], Value.int 2, true) ∧
    stopCond scen1Cfg.stopOID [1, 3, 6, 1, 2, 1] (Value.int 2) = false := by
  decide

/-- Claim C5 amended: for snmprec records with no variation module (the
formatter then never signals more-data), the `stopFlag` seen when the
`j`-th binding of a successful response is formatted is true iff some
binding at or before position `j` in that response reaches the configured
stop identifier or carries a sentinel value — the flag is latched within
the batch, not recomputed per binding. -/
theorem claim_C5_stopflag_latched (bHex bPlain : OID → Value → RecTriple)
    (cfg : Config) (hfmt : cfg.fmt = mixinFormatValue bHex bPlain none)
    (ctx : CbCtx) (r : Response) (hok : isErrorResponse r = false) (j : Nat) :
    (cbFun cfg ctx r).fmtLog[j]? =
      (r.varBindTable.flatten)[j]?.map (fun b =>
        (b.1, b.2,
          (r.varBindTable.flatten.take (j + 1)).any fun y =>
            stopCond cfg.stopOID y.1 y.2)) := by
  rw [cbFun_success_eq cfg ctx r hok]
  have hnm := mixinNone_neverMoreData bHex bPlain cfg hfmt
  simp only [successStep]
  rw [processBatch_eq_bindFoldl]
  rw [(bindFoldl_log cfg hnm r.varBindTable.flatten _).1]
  simp only [List.nil_append]
  rw [seenLog_getElem cfg.stopOID r.varBindTable.flatten false j]
  cases h : (r.varBindTable.flatten)[j]? with
  | none => simp [h]
  | some b => simp [h]

/-- Witness for the amended C5: the two-binding batch of the
counterexample input, looked up at position 1. -/
theorem claim_C5_stopflag_latched_witness :
    scen1Cfg.fmt = mixinFormatValue sampleRender sampleRender none ∧
    isErrorResponse cex5Resp = false ∧
    (cbFun scen1Cfg (initCtx scen1Cfg) cex5Resp).fmtLog[1]? =
      (cex5Resp.varBindTable.flatten)[1]?.map (fun b =>
        (b.1, b.2,
          (cex5Resp.varBindTable.flatten.take 2).any fun y =>
            stopCond scen1Cfg.stopOID y.1 y.2)) :=
  ⟨rfl, by decide,
    claim_C5_stopflag_latched sampleRender sampleRender scen1Cfg rfl
      (initCtx scen1Cfg) cex5Resp (by decide) 1⟩

/-- Claim C6: `retriesRemaining` stays within `[0, retryBudget]` (it is a
natural number here because every decrement in the source is guarded by
positivity): under the invariant it never exceeds the budget; a strict
decrease happens only on the error path with retries still positive and
is exactly one; a successful response increases it by at most one; and
along every callback sequence from the initial session it stays at most
the budget. -/
theorem claim_C6_retries_bounds (cfg : Config) (ctx : CbCtx) (r : Response)
    (hinv : ctx.retries ≤ cfg.continueOnErrors) :
    (cbFun cfg ctx r).ctx.retries ≤ cfg.continueOnErrors ∧
    ((cbFun cfg ctx r).ctx.retries < ctx.retries →
      isErrorResponse r = true ∧ 0 < ctx.retries ∧
      (cbFun cfg ctx r).ctx.retries = ctx.retries - 1) ∧
    (isErrorResponse r = false →
      ctx.retries ≤ (cbFun cfg ctx r).ctx.retries ∧
      (cbFun cfg ctx r).ctx.retries ≤ ctx.retries + 1) ∧
    (∀ rs : List Response,
      (iterCb cfg (initCtx cfg) rs).retries ≤ cfg.continueOnErrors) := by
  refine ⟨cbFun_retries_le cfg ctx r hinv, ?_, ?_, ?_⟩
  · intro hlt
    rcases cbFun_retries_cases cfg ctx r with h1 | ⟨h1, he, h0⟩ | ⟨h1, _, _⟩
    · rw [h1] at hlt
      exact absurd hlt (lt_irrefl _)
    · exact ⟨he, Nat.pos_of_ne_zero h0, h1⟩
    · rw [h1] at hlt
      omega
  · intro hsucc
    rcases cbFun_retries_cases cfg ctx r with h1 | ⟨_, he, _⟩ | ⟨h1, _, _⟩
    · rw [h1]
      exact ⟨le_refl _, Nat.le_succ _⟩
    · rw [hsucc] at he
      simp at he
    · rw [h1]
      exact ⟨Nat.le_succ _, le_refl _⟩
  · intro rs
    exact iterCb_retries_le cfg rs (initCtx cfg) (by simp [initCtx])

/-- Witness for C6: the retry budget-3 configuration, a session with two
retries left, and a transport-error response. -/
theorem claim_C6_retries_bounds_witness :
    ({ initCtx budget3Cfg with retries := 2 } : CbCtx).retries ≤
      budget3Cfg.continueOnErrors ∧
    ((cbFun budget3Cfg { initCtx budget3Cfg with retries := 2 }
        errResp).ctx.retries ≤ budget3Cfg.continueOnErrors ∧
      ((cbFun budget3Cfg { initCtx budget3Cfg with retries := 2 }
          errResp).ctx.retries <
          ({ initCtx budget3Cfg with retries := 2 } : CbCtx).retries →
        isErrorResponse errResp = true ∧
        0 < ({ initCtx budget3Cfg with retries := 2 } : CbCtx).retries ∧
        (cbFun budget3Cfg { initCtx budget3Cfg with retries := 2 }
          errResp).ctx.retries =
          ({ initCtx budget3Cfg with retries := 2 } : CbCtx).retries - 1) ∧
      (isErrorResponse errResp = false →
        ({ initCtx budget3Cfg with retries := 2 } : CbCtx).retries ≤
          (cbFun budget3Cfg { initCtx budget3Cfg with retries := 2 }
            errResp).ctx.retries ∧
        (cbFun budget3Cfg { initCtx budget3Cfg with retries := 2 }
          errResp).ctx.retries ≤
          ({ initCtx budget3Cfg with retries := 2 } : CbCtx).retries + 1) ∧
      (∀ rs : List Response,
        (iterCb budget3Cfg (initCtx budget3Cfg) rs).retries ≤
          budget3Cfg.continueOnErrors)) :=
  ⟨by decide,
    claim_C6_retries_bounds budget3Cfg
      { initCtx budget3Cfg with retries := 2 } errResp (by decide)⟩

/-- Claim C7: a response with protocol status exactly 2 (`noSuchName`)
and no transport error is handled as a clean success: the callback
behaves exactly as it would on status 0, the error counter is unchanged,
and the retry budget is not consumed (the bindings are processed by the
normal success arm). -/
theorem claim_C7_nosuchname_success (cfg : Config) (ctx : CbCtx)
    (r : Response) (hi : r.errorIndication = false)
    (hs : r.errorStatus = 2) :
    cbFun cfg ctx r = cbFun cfg ctx { r with errorStatus := 0 } ∧
    (cbFun cfg ctx r).ctx.errors = ctx.errors ∧
    ctx.retries ≤ (cbFun cfg ctx r).ctx.retries := by
  have he : isErrorResponse r = false := by
    unfold isErrorResponse
    rw [hi, hs]
    simp
  have he0 : isErrorResponse { r with errorStatus := 0 } = false := by
    unfold isErrorResponse
    simp [hi]
  refine ⟨?_, ?_, ?_⟩
  · rw [cbFun_success_eq cfg ctx r he, cbFun_success_eq cfg ctx _ he0]
  · rw [cbFun_success_eq cfg ctx r he, successStep_errors]
  · rw [cbFun_success_eq cfg ctx r he, successStep_retries]
    split <;> omega

/-- Witness for C7: the concrete `noSuchName` response. -/
theorem claim_C7_nosuchname_success_witness :
    status2Resp.errorIndication = false ∧ status2Resp.errorStatus = 2 ∧
    (cbFun scen1Cfg (initCtx scen1Cfg) status2Resp =
        cbFun scen1Cfg (initCtx scen1Cfg)
          { status2Resp with errorStatus := 0 } ∧
      (cbFun scen1Cfg (initCtx scen1Cfg) status2Resp).ctx.errors =
        (initCtx scen1Cfg).errors ∧
      (initCtx scen1Cfg).retries ≤
        (cbFun scen1Cfg (initCtx scen1Cfg) status2Resp).ctx.retries) :=
  ⟨by decide, by decide,
    claim_C7_nosuchname_success scen1Cfg (initCtx scen1Cfg) status2Resp
      (by decide) (by decide)⟩

/-- Counterexample to claim C8 as stated: with a variation module whose
handler signals more-data on the first binding of a two-binding response,
the controller does issue the restart poll at the original start OID, but
the remainder of the batch is not abandoned — the second binding is still
formatted and emitted (one line written, per-iteration count back up to
1). -/
theorem claim_C8_counterexample :
    (cbFun cex8Cfg (initCtx cex8Cfg) cex8Resp).requests =
      [[1, 3, 6, 1, 2, 1]] ∧
    (cbFun cex8Cfg (initCtx cex8Cfg) cex8Resp).written =
      [{ oid := [1, 3, 6, 1, 2, 1, 2], tag := "2", val := "x" }] ∧
    (cbFun cex8Cfg (initCtx cex8Cfg) cex8Resp).ctx.count = 1 ∧
    (cbFun cex8Cfg (initCtx cex8Cfg) cex8Resp).ctx.iteration = 1 := by
  decide

/-- Claim C8 amended: when the emitter signals more-data on a binding,
the controller resets the per-iteration count to 0, increments the
iteration number by exactly one, issues the next poll at the original
start identifier (not the last-seen one), and latches `stopFlag` — which
makes the callback return false after the batch, but the remaining
bindings of the current response are still formatted rather than
abandoned. -/
theorem claim_C8_more_data_restart (cfg : Config) (st : BatchState)
    (oid : OID) (v : Value) (p : Option Nat)
    (h : cfg.fmt oid (normalizeValue v)
        (mkFmtCtx cfg st.ctx oid (normalizeValue v)
          (st.stopFlag || stopCond cfg.stopOID oid v)) =
        FormatResult.moreData p) :
    (processBinding cfg st oid v).ctx.count = 0 ∧
    (processBinding cfg st oid v).ctx.iteration = st.ctx.iteration + 1 ∧
    (processBinding cfg st oid v).requests = st.requests ++ [cfg.startOID] ∧
    (processBinding cfg st oid v).stopFlag = true ∧
    (∀ (st2 : BatchState) (t : List (List (OID × Value))),
      st2.stopFlag = true → (processBatch cfg st2 t).stopFlag = true) := by
  unfold processBinding
  rw [h]
  exact ⟨rfl, rfl, rfl, rfl,
    fun st2 t h2 => processBatch_latch cfg t st2 h2⟩

/-- Witness for the amended C8: the more-data handler configuration fired
on the counterexample's first binding. -/
theorem claim_C8_more_data_restart_witness :
    cex8Cfg.fmt [1, 3, 6, 1, 2, 1, 1] (normalizeValue (Value.int 1))
        (mkFmtCtx cex8Cfg (initBatch (initCtx cex8Cfg)).ctx
          [1, 3, 6, 1, 2, 1, 1] (normalizeValue (Value.int 1))
          ((initBatch (initCtx cex8Cfg)).stopFlag ||
            stopCond cex8Cfg.stopOID [1, 3, 6, 1, 2, 1, 1] (Value.int 1))) =
      FormatResult.moreData (some 2) ∧
    ((processBinding cex8Cfg (initBatch (initCtx cex8Cfg))
        [1, 3, 6, 1, 2, 1, 1] (Value.int 1)).ctx.count = 0 ∧
      (processBinding cex8Cfg (initBatch (initCtx cex8Cfg))
        [1, 3, 6, 1, 2, 1, 1] (Value.int 1)).ctx.iteration =
        (initBatch (initCtx cex8Cfg)).ctx.iteration + 1 ∧
      (processBinding cex8Cfg (initBatch (initCtx cex8Cfg))
        [1, 3, 6, 1, 2, 1, 1] (Value.int 1)).requests =
        (initBatch (initCtx cex8Cfg)).requests ++ [cex8Cfg.startOID] ∧
      (processBinding cex8Cfg (initBatch (initCtx cex8Cfg))
        [1, 3, 6, 1, 2, 1, 1] (Value.int 1)).stopFlag = true ∧
      (∀ (st2 : BatchState) (t : List (List (OID × Value))),
        st2.stopFlag = true →
        (processBatch cex8Cfg st2 t).stopFlag = true)) :=
  ⟨by decide,
    claim_C8_more_data_restart cex8Cfg (initBatch (initCtx cex8Cfg))
      [1, 3, 6, 1, 2, 1, 1] (Value.int 1) (some 2) (by decide)⟩

/-- Claim C9: the retry-ratio expression divides by the configured
`continueOnErrors` budget, and that division is never a division by zero:
the guard evaluating it runs only with `retries ≠ 0`, and since the
session invariant keeps `retries ≤ continueOnErrors` — both at an
arbitrary invariant-satisfying state and along every callback sequence
from the initial session — the budget is at least 1 whenever the
expression is evaluated. -/
theorem claim_C9_ratio_division_safe (cfg : Config) (ctx : CbCtx)
    (r : Response) (hinv : ctx.retries ≤ cfg.continueOnErrors)
    (h : ratioEvaluated cfg ctx r = true) :
    1 ≤ cfg.continueOnErrors ∧
    (∀ (rs : List Response) (r2 : Response),
      ratioEvaluated cfg (iterCb cfg (initCtx cfg) rs) r2 = true →
      1 ≤ cfg.continueOnErrors) := by
  have key : ∀ c : CbCtx, c.retries ≤ cfg.continueOnErrors →
      ∀ r2 : Response, ratioEvaluated cfg c r2 = true →
      1 ≤ cfg.continueOnErrors := by
    intro c hc r2 h2
    unfold ratioEvaluated at h2
    simp only [Bool.and_eq_true, decide_eq_true_eq] at h2
    obtain ⟨⟨⟨-, -⟩, hne⟩, -⟩ := h2
    omega
  exact ⟨key ctx hinv r h,
    fun rs r2 =>
      key _ (iterCb_retries_le cfg rs _ (by simp [initCtx])) r2⟩

/-- Witness for C9: the budget-3 configuration at its initial session and
a transport-error response carrying a long failed OID. -/
theorem claim_C9_ratio_division_safe_witness :
    (initCtx budget3Cfg).retries ≤ budget3Cfg.continueOnErrors ∧
    ratioEvaluated budget3Cfg (initCtx budget3Cfg) errResp = true ∧
    (1 ≤ budget3Cfg.continueOnErrors ∧
      (∀ (rs : List Response) (r2 : Response),
        ratioEvaluated budget3Cfg (iterCb budget3Cfg (initCtx budget3Cfg) rs)
            r2 = true →
        1 ≤ budget3Cfg.continueOnErrors)) :=
  ⟨by decide, by decide,
    claim_C9_ratio_division_safe budget3Cfg (initCtx budget3Cfg) errResp
      (by decide) (by decide)⟩

/-- Claim C10: for the snmprec destination record types, a binding whose
latched `stopFlag` is true is silently dropped when no variation module
is configured — the formatter returns the no-data signal and the binding
changes no session counter, writes nothing and issues nothing — while
with a variation module configured the same binding is passed through the
module's `record` handler and, when that handler returns a line, is
emitted and counted. -/
theorem claim_C10_stopflag_drop (bHex bPlain : OID → Value → RecTriple)
    (handler : RecTriple → FmtCtx → FormatResult)
    (cfgN cfgM : Config) (st : BatchState) (oid : OID) (v : Value)
    (t : RecTriple)
    (hN : cfgN.fmt = mixinFormatValue bHex bPlain none)
    (hM : cfgM.fmt = mixinFormatValue bHex bPlain (some handler))
    (hflagN : (st.stopFlag || stopCond cfgN.stopOID oid v) = true)
    (hflagM : (st.stopFlag || stopCond cfgM.stopOID oid v) = true)
    (hhandler : handler (chosenTriple bHex bPlain oid (normalizeValue v))
        (mkFmtCtx cfgM st.ctx oid (normalizeValue v) true) =
        FormatResult.line t) :
    cfgN.fmt oid (normalizeValue v)
        (mkFmtCtx cfgN st.ctx oid (normalizeValue v) true) =
      FormatResult.noData ∧
    (processBinding cfgN st oid v).ctx = st.ctx ∧
    (processBinding cfgN st oid v).written = st.written ∧
    (processBinding cfgN st oid v).requests = st.requests ∧
    (processBinding cfgM st oid v).written = st.written ++ [t] ∧
    (processBinding cfgM st oid v).ctx.count = st.ctx.count + 1 ∧
    (processBinding cfgM st oid v).ctx.total = st.ctx.total + 1 := by
  have hfN : cfgN.fmt oid (normalizeValue v)
      (mkFmtCtx cfgN st.ctx oid (normalizeValue v) true) =
      FormatResult.noData := by
    rw [hN]
    unfold mixinFormatValue
    rfl
  have hfM : cfgM.fmt oid (normalizeValue v)
      (mkFmtCtx cfgM st.ctx oid (normalizeValue v) true) =
      FormatResult.line t := by
    rw [hM]
    unfold mixinFormatValue
    exact hhandler
  refine ⟨hfN, ?_, ?_, ?_, ?_, ?_, ?_⟩
  · unfold processBinding
    rw [hflagN, hfN]
    rfl
  · unfold processBinding
    rw [hflagN, hfN]
    rfl
  · unfold processBinding
    rw [hflagN, hfN]
    rfl
  · unfold processBinding
    rw [hflagM, hfM]
    rfl
  · unfold processBinding
    rw [hflagM, hfM]
    rfl
  · unfold processBinding
    rw [hflagM, hfM]
    rfl

/-- Witness for C10: a binding at the stop identifier under the
no-module and pass-through-module configurations. -/
theorem claim_C10_stopflag_drop_witness :
    scen1Cfg.fmt = mixinFormatValue sampleRender sampleRender none ∧
    modCfg.fmt = mixinFormatValue sampleRender sampleRender
      (some passHandler) ∧
    ((initBatch (initCtx scen1Cfg)).stopFlag ||
      stopCond scen1Cfg.stopOID [1, 3, 6, 1, 2, 2] (Value.int 7)) = true ∧
    passHandler
        (chosenTriple sampleRender sampleRender [1, 3, 6, 1, 2, 2]
          (normalizeValue (Value.int 7)))
        (mkFmtCtx modCfg (initBatch (initCtx scen1Cfg)).ctx [1, 3, 6, 1, 2, 2]
          (normalizeValue (Value.int 7)) true) =
      FormatResult.line
        { oid := [1, 3, 6, 1, 2, 2], tag := "2", val := "x" } ∧
    (processBinding scen1Cfg (initBatch (initCtx scen1Cfg)) [1, 3, 6, 1, 2, 2]
        (Value.int 7)).ctx = (initBatch (initCtx scen1Cfg)).ctx ∧
    (processBinding modCfg (initBatch (initCtx scen1Cfg)) [1, 3, 6, 1, 2, 2]
        (Value.int 7)).written =
      (initBatch (initCtx scen1Cfg)).written ++
        [{ oid := [1, 3, 6, 1, 2, 2], tag := "2", val := "x" }] :=
  ⟨rfl, rfl, by decide, by decide,
    (claim_C10_stopflag_drop sampleRender sampleRender passHandler scen1Cfg
      modCfg (initBatch (initCtx scen1Cfg)) [1, 3, 6, 1, 2, 2] (Value.int 7)
      { oid := [1, 3, 6, 1, 2, 2], tag := "2", val := "x" }
      rfl rfl (by decide) (by decide) (by decide)).2.1,
    (claim_C10_stopflag_drop sampleRender sampleRender passHandler scen1Cfg
      modCfg (initBatch (initCtx scen1Cfg)) [1, 3, 6, 1, 2, 2] (Value.int 7)
      { oid := [1, 3, 6, 1, 2, 2], tag := "2", val := "x" }
      rfl rfl (by decide) (by decide) (by decide)).2.2.2.2.1⟩

end Cmd2Rec
